import Mathlib

/-!
# Verification of the tunnelto control protocol and server logic

A shallow embedding, in Lean 4, of the parts of the `tunnelto` repository
that its specification talks about:

* the binary wire codec for `ControlPacket` (`tunnelto_lib/src/lib.rs`),
* the reconnect-token signer/verifier
  (`tunnelto_server/src/auth/reconnect_token.rs`, `auth/mod.rs`),
* the client handshake / authentication logic
  (`tunnelto_server/src/auth/client_auth.rs`),
* the connection registry (`tunnelto_server/src/connected_clients.rs`),
* the per-client control pump (`tunnelto_server/src/control_server.rs`),
* the public edge stream lifecycle (`tunnelto_server/src/remote.rs`),
* the gossip peer lookup (`tunnelto_server/src/network/mod.rs`).

Machine bytes are modelled as `Nat` (the code only moves bytes around, it
never does arithmetic on them, so no overflow modelling is needed).  Rust
`String`s that only travel the wire as their UTF-8 bytes are modelled by
their byte sequences (`List Nat`); `String::into_bytes` is then the
identity and `String::from_utf8_lossy` is the identity on the image of
`into_bytes` (valid UTF-8), exactly the uses the code makes of them.
-/

namespace Tunnelto

/-- Decidable equality for `Except`, used to evaluate the modelled
fallible functions on concrete inputs. -/
instance {ε α : Type} [DecidableEq ε] [DecidableEq α] :
    DecidableEq (Except ε α)
  | .ok a, .ok b => by
    cases decEq a b with
    | isTrue h => exact isTrue (by rw [h])
    | isFalse h => exact isFalse (by intro hh; cases hh; exact h rfl)
  | .ok _, .error _ => isFalse (by intro h; cases h)
  | .error _, .ok _ => isFalse (by intro h; cases h)
  | .error e, .error f => by
    cases decEq e f with
    | isTrue h => exact isTrue (by rw [h])
    | isFalse h => exact isFalse (by intro hh; cases hh; exact h rfl)

/-! ## Wire codec (`tunnelto_lib/src/lib.rs`)

`StreamId` is `[u8; 8]` in the source; here a byte list whose length-8
well-formedness is tracked by `StreamId.wellFormed`.  A reconnect token on
the wire is its UTF-8 byte sequence. -/

/-- `StreamId([u8; 8])` from `tunnelto_lib/src/lib.rs`, as its byte list. -/
abbrev StreamId := List Nat

/-- A `ReconnectToken(String)` as the UTF-8 bytes of its string. -/
abbrev TokenBytes := List Nat

/-- `const EMPTY_STREAM: StreamId = StreamId([0xF, 0, 0, 0, 0, 0, 0, 0])`. -/
def EMPTY_STREAM : StreamId := [0xF, 0x00, 0x00, 0x00, 0x00, 0x00, 0x00, 0x00]

/-- `const TOKEN_STREAM: StreamId = StreamId([0xF, 0, 0, 0, 0, 0, 0, 1])`. -/
def TOKEN_STREAM : StreamId := [0xF, 0x00, 0x00, 0x00, 0x00, 0x00, 0x00, 0x01]

/-- The `ControlPacket` enum from `tunnelto_lib/src/lib.rs`. -/
inductive ControlPacket where
  | init (sid : StreamId)
  | data (sid : StreamId) (payload : List Nat)
  | refused (sid : StreamId)
  | end_ (sid : StreamId)
  | ping (token : Option TokenBytes)
  deriving DecidableEq, Repr

namespace ControlPacket

/-- `ControlPacket::serialize` (`tunnelto_lib/src/lib.rs:152-165`):
`tag(1) ∥ stream_id(8) ∥ payload`, where `Ping` writes `EMPTY_STREAM`
when it has no token and `TOKEN_STREAM ∥ token-bytes` otherwise. -/
def serialize : ControlPacket → List Nat
  | .init sid => 0x01 :: sid
  | .data sid payload => 0x02 :: (sid ++ payload)
  | .refused sid => 0x03 :: sid
  | .end_ sid => 0x04 :: sid
  | .ping none => 0x05 :: EMPTY_STREAM
  | .ping (some t) => 0x05 :: (TOKEN_STREAM ++ t)

/-- `ControlPacket::deserialize` (`tunnelto_lib/src/lib.rs:177-204`):
reject frames shorter than 9 bytes, read the stream id from bytes 1..9,
dispatch on the tag byte, and for tag `0x05` return `Ping(None)` exactly
when the stream id equals `EMPTY_STREAM`. -/
def deserialize (data : List Nat) : Except String ControlPacket :=
  if data.length < 9 then
    .error "invalid DataPacket, missing stream id"
  else
    let stream_id : StreamId := (data.drop 1).take 8
    match data.headD 0 with
    | 0x01 => .ok (.init stream_id)
    | 0x02 => .ok (.data stream_id (data.drop 9))
    | 0x03 => .ok (.refused stream_id)
    | 0x04 => .ok (.end_ stream_id)
    | 0x05 =>
      if stream_id = EMPTY_STREAM then .ok (.ping none)
      else .ok (.ping (some (data.drop 9)))
    | _ => .error "invalid control byte in DataPacket"

/-- A packet is well formed when every stream id it carries has the 8-byte
length that the Rust type `[u8; 8]` guarantees. -/
def wellFormed : ControlPacket → Prop
  | .init sid => sid.length = 8
  | .data sid _ => sid.length = 8
  | .refused sid => sid.length = 8
  | .end_ sid => sid.length = 8
  | .ping _ => True

instance : DecidablePred wellFormed := by
  intro p; cases p <;> simp [wellFormed] <;> infer_instance

end ControlPacket

end Tunnelto

namespace Tunnelto

lemma take_append_of_length {α : Type} (xs ys : List α) (h : xs.length = 8) :
    (xs ++ ys).take 8 = xs := by
  rw [← h, List.take_left]

lemma drop_append_of_length {α : Type} (xs ys : List α) (h : xs.length = 8) :
    (xs ++ ys).drop 8 = ys := by
  rw [← h, List.drop_left]

end Tunnelto

/-- C2: for every well-formed `ControlPacket` `p` (stream ids are 8 bytes,
as `[u8; 8]` guarantees), `deserialize (serialize p) = Ok p`; in
particular for `Ping (some t)` the recovered token bytes equal `t`. -/
theorem Tunnelto.controlPacket_roundtrip (p : Tunnelto.ControlPacket)
    (h : p.wellFormed) :
    Tunnelto.ControlPacket.deserialize p.serialize = .ok p := by
  cases p with
  | init sid =>
    simp only [ControlPacket.wellFormed] at h
    simp [ControlPacket.serialize, ControlPacket.deserialize, h]
  | data sid payload =>
    simp only [ControlPacket.wellFormed] at h
    simp [ControlPacket.serialize, ControlPacket.deserialize, h,
      take_append_of_length sid payload h, drop_append_of_length sid payload h]
  | refused sid =>
    simp only [ControlPacket.wellFormed] at h
    simp [ControlPacket.serialize, ControlPacket.deserialize, h]
  | end_ sid =>
    simp only [ControlPacket.wellFormed] at h
    simp [ControlPacket.serialize, ControlPacket.deserialize, h]
  | ping token =>
    cases token with
    | none => simp [ControlPacket.serialize, ControlPacket.deserialize,
        EMPTY_STREAM]
    | some t =>
      simp [ControlPacket.serialize, ControlPacket.deserialize,
        take_append_of_length TOKEN_STREAM t rfl,
        drop_append_of_length TOKEN_STREAM t rfl,
        TOKEN_STREAM, EMPTY_STREAM]

/-- Witness for C2: the round trip evaluated on the concrete packet
`Ping (some "hi")` (token bytes `[0x68, 0x69]`). -/
theorem Tunnelto.controlPacket_roundtrip_witness :
    Tunnelto.ControlPacket.wellFormed
        (.ping (some [0x68, 0x69])) ∧
      Tunnelto.ControlPacket.deserialize
        (Tunnelto.ControlPacket.serialize (.ping (some [0x68, 0x69]))) =
        .ok (.ping (some [0x68, 0x69])) :=
  ⟨by decide,
   Tunnelto.controlPacket_roundtrip (.ping (some [0x68, 0x69])) (by decide)⟩

/-- C9: `deserialize b` errors on every byte sequence shorter than
9 bytes, so the 8-byte stream-id slice at bytes 1..9 is always in
bounds when a packet is produced. -/
theorem Tunnelto.deserialize_short_frame_errors (b : List Nat)
    (h : b.length < 9) :
    Tunnelto.ControlPacket.deserialize b =
      .error "invalid DataPacket, missing stream id" := by
  simp [ControlPacket.deserialize, h]

/-- Witness for C9: the concrete 3-byte frame `[0x02, 0x00, 0x01]`
is rejected. -/
theorem Tunnelto.deserialize_short_frame_errors_witness :
    [0x02, 0x00, 0x01].length < 9 ∧
      Tunnelto.ControlPacket.deserialize [0x02, 0x00, 0x01] =
        .error "invalid DataPacket, missing stream id" :=
  ⟨by decide, Tunnelto.deserialize_short_frame_errors [0x02, 0x00, 0x01]
    (by decide)⟩

namespace Tunnelto

/-! ## Connection registry (`tunnelto_server/src/connected_clients.rs`)

`Connections` holds two concurrent maps, `clients : ClientId →
ConnectedClient` and `hosts : String → ConnectedClient`.  The maps are
modelled as association lists under the usual map observation: `insert`
conses (shadowing any old binding), `erase` filters out all bindings of
the key, `lookup` takes the first binding.  The client's outgoing
channel is omitted: `remove` only closes it, which does not affect the
map contents the claim is about. -/

/-- `ConnectedClient` (`connected_clients.rs:6-11`) without its `tx`
channel. -/
structure ConnectedClient where
  id : String
  host : String
  is_anonymous : Bool
  deriving DecidableEq, Repr

/-- First-binding association-list lookup (`DashMap::get`). -/
def alookup : List (String × ConnectedClient) → String → Option ConnectedClient
  | [], _ => none
  | (k, v) :: rest, key => if key = k then some v else alookup rest key

/-- Key deletion (`DashMap::remove`): drop every binding of the key. -/
def aerase (key : String) : List (String × ConnectedClient) →
    List (String × ConnectedClient)
  | [] => []
  | (k, v) :: rest =>
    if k = key then aerase key rest else (k, v) :: aerase key rest

/-- Key-shadowing insertion (`DashMap::insert`). -/
def ainsert (key : String) (v : ConnectedClient)
    (m : List (String × ConnectedClient)) : List (String × ConnectedClient) :=
  (key, v) :: m

/-- The two registry maps of `Connections` (`connected_clients.rs:23-26`). -/
structure Connections where
  clients : List (String × ConnectedClient)
  hosts : List (String × ConnectedClient)
  deriving DecidableEq, Repr

/-- The empty registry (`Connections::new`). -/
def Connections.new : Connections := ⟨[], []⟩

/-- `Connections::add` (`connected_clients.rs:83-89`):
`clients.insert(c.id, c); hosts.insert(c.host, c)`. -/
def Connections.add (s : Connections) (c : ConnectedClient) : Connections :=
  { clients := ainsert c.id c s.clients, hosts := ainsert c.host c s.hosts }

/-- `Connections::remove` (`connected_clients.rs:42-66`): after closing the
channel, delete `hosts[c.host]` only if it currently holds a client with
id `c.id`, then delete `clients[c.id]` unconditionally. -/
def Connections.remove (s : Connections) (c : ConnectedClient) : Connections :=
  let hosts' :=
    if (alookup s.hosts c.host).elim false (fun e => e.id == c.id) then
      aerase c.host s.hosts
    else s.hosts
  { clients := aerase c.id s.clients, hosts := hosts' }

/-- `Connections::update_host` (`connected_clients.rs:36-40`):
`hosts.insert(c.host, c)`. -/
def Connections.update_host (s : Connections) (c : ConnectedClient) :
    Connections :=
  { s with hosts := ainsert c.host c s.hosts }

/-- `Connections::client_for_host` (`connected_clients.rs:68-70`). -/
def Connections.client_for_host (s : Connections) (host : String) :
    Option String :=
  (alookup s.hosts host).map (fun c => c.id)

/-- `Connections::find_by_host` (`connected_clients.rs:79-81`). -/
def Connections.find_by_host (s : Connections) (host : String) :
    Option ConnectedClient :=
  alookup s.hosts host

/-- `Connections::get` (`connected_clients.rs:72-77`). -/
def Connections.get (s : Connections) (client_id : String) :
    Option ConnectedClient :=
  alookup s.clients client_id

/-- One registry operation, as in the claim. -/
inductive RegistryOp where
  | add (c : ConnectedClient)
  | remove (c : ConnectedClient)
  | update_host (c : ConnectedClient)
  deriving DecidableEq, Repr

/-- Apply one operation to the registry state. -/
def Connections.apply (s : Connections) : RegistryOp → Connections
  | .add c => s.add c
  | .remove c => s.remove c
  | .update_host c => s.update_host c

/-- Run a sequence of operations from a starting state. -/
def Connections.run (s : Connections) : List RegistryOp → Connections
  | [] => s
  | op :: ops => (s.apply op).run ops

/-- The agreement invariant of the claim: `hosts[h]` holds a client with
id `i` exactly when `clients[i]` holds a client with host `h`. -/
def Connections.agrees (s : Connections) : Prop :=
  ∀ (i h : String),
    (∃ e, alookup s.hosts h = some e ∧ e.id = i) ↔
      (∃ d, alookup s.clients i = some d ∧ d.host = h)

/-- Absence of conflicting registrations: an `add c` may not overwrite a
binding of `c.id` or `c.host` held by a different client, a `remove c`
may not run while `clients[c.id]` holds a different client, and an
`update_host c` requires `clients[c.id] = c` (a live client refreshing
its own host entry, as the `Ping` path does). -/
def Connections.okOp (s : Connections) : RegistryOp → Bool
  | .add c =>
    ((alookup s.clients c.id).elim true (fun e => e == c)) &&
      ((alookup s.hosts c.host).elim true (fun e => e == c))
  | .remove c => (alookup s.clients c.id).elim true (fun e => e == c)
  | .update_host c => alookup s.clients c.id == some c

/-- A conflict-free trace: every operation is `okOp` in the state where
it executes. -/
def Connections.safeTrace (s : Connections) : List RegistryOp → Bool
  | [] => true
  | op :: ops => s.okOp op && (s.apply op).safeTrace ops

lemma alookup_aerase (key : String) (m : List (String × ConnectedClient))
    (k : String) :
    alookup (aerase key m) k = if k = key then none else alookup m k := by
  induction m with
  | nil => simp [aerase, alookup]
  | cons p rest ih =>
    obtain ⟨pk, pv⟩ := p
    by_cases hpk : pk = key
    · subst hpk
      by_cases hk : k = pk
      · subst hk
        simp [aerase, ih]
      · simp [aerase, alookup, hk, ih]
    · by_cases hk : k = pk
      · subst hk
        simp [aerase, alookup, hpk, Ne.symm hpk]
      · by_cases hkey : k = key
        · subst hkey
          simp [aerase, alookup, hpk, hk, ih]
        · simp [aerase, alookup, hpk, hk, hkey, ih]

lemma alookup_ainsert (key : String) (v : ConnectedClient)
    (m : List (String × ConnectedClient)) (k : String) :
    alookup (ainsert key v m) k = if k = key then some v else alookup m k := by
  simp [ainsert, alookup]

lemma elim_beq_of_true {o : Option ConnectedClient} {c : ConnectedClient}
    (h : o.elim true (fun e => e == c) = true) :
    ∀ e, o = some e → e = c := by
  intro e he
  subst he
  simpa using h

lemma agrees_add (s : Connections) (c : ConnectedClient) (hs : s.agrees)
    (hc : ∀ e, alookup s.clients c.id = some e → e = c)
    (hh : ∀ e, alookup s.hosts c.host = some e → e = c) :
    (s.add c).agrees := by
  intro i h
  simp only [Connections.add, alookup_ainsert]
  by_cases hi : i = c.id <;> by_cases hho : h = c.host
  · subst hi; subst hho
    simp
  · subst hi
    simp only [if_pos rfl, if_neg hho]
    constructor
    · rintro ⟨e, he, hei⟩
      exfalso
      obtain ⟨d, hd, hdh⟩ := (hs c.id h).mp ⟨e, he, hei⟩
      rw [hc d hd] at hdh
      exact hho hdh.symm
    · rintro ⟨d, hd, hdh⟩
      exfalso
      rw [← Option.some.inj hd] at hdh
      exact hho hdh.symm
  · subst hho
    simp only [if_pos rfl, if_neg hi]
    constructor
    · rintro ⟨e, he, hei⟩
      exfalso
      rw [← Option.some.inj he] at hei
      exact hi hei.symm
    · rintro ⟨d, hd, hdh⟩
      exfalso
      obtain ⟨e, he, hei⟩ := (hs i c.host).mpr ⟨d, hd, hdh⟩
      rw [hh e he] at hei
      exact hi hei.symm
  · simp only [if_neg hi, if_neg hho]
    exact hs i h

lemma agrees_remove (s : Connections) (c : ConnectedClient) (hs : s.agrees)
    (hc : ∀ e, alookup s.clients c.id = some e → e = c) :
    (s.remove c).agrees := by
  rcases hcl : alookup s.clients c.id with _ | d
  · -- `c.id` is not registered: the host guard cannot fire.
    have hguard : (alookup s.hosts c.host).elim false
        (fun e => e.id == c.id) = false := by
      rcases hho : alookup s.hosts c.host with _ | e
      · rfl
      · simp only [Option.elim]
        by_contra hbe
        have heid : e.id = c.id := by simpa using hbe
        obtain ⟨d, hd, _⟩ := (hs c.id c.host).mp ⟨e, hho, heid⟩
        rw [hcl] at hd
        exact Option.noConfusion hd
    intro i h
    simp only [Connections.remove, hguard, Bool.false_eq_true, if_neg,
      alookup_aerase]
    by_cases hi : i = c.id
    · subst hi
      simp only [if_pos rfl]
      constructor
      · rintro ⟨e, he, hei⟩
        exfalso
        obtain ⟨d, hd, _⟩ := (hs c.id h).mp ⟨e, he, hei⟩
        rw [hcl] at hd
        exact Option.noConfusion hd
      · rintro ⟨d, hd, _⟩
        exact Option.noConfusion hd
    · simp only [if_neg hi]
      exact hs i h
  · -- `c.id` is registered, so by the precondition it holds `c` itself,
    -- the host guard fires and both bindings are erased.
    have hdc : d = c := hc d hcl
    subst hdc
    obtain ⟨e, he, hei⟩ := (hs d.id d.host).mpr ⟨d, hcl, rfl⟩
    have hguard : (alookup s.hosts d.host).elim false
        (fun x => x.id == d.id) = true := by
      rw [he]
      simpa using hei
    intro i h
    simp only [Connections.remove, hguard, if_pos, alookup_aerase]
    by_cases hi : i = d.id <;> by_cases hho : h = d.host
    · subst hi; subst hho
      simp
    · subst hi
      simp only [if_pos rfl, if_neg hho]
      constructor
      · rintro ⟨e', he', hei'⟩
        exfalso
        obtain ⟨d', hd', hdh'⟩ := (hs d.id h).mp ⟨e', he', hei'⟩
        rw [hcl] at hd'
        rw [← Option.some.inj hd'] at hdh'
        exact hho hdh'.symm
      · rintro ⟨d', hd', _⟩
        exact Option.noConfusion hd'
    · subst hho
      simp only [if_pos rfl, if_neg hi]
      constructor
      · rintro ⟨e', he', _⟩
        exact Option.noConfusion he'
      · rintro ⟨d', hd', hdh'⟩
        exfalso
        obtain ⟨e', he', hei'⟩ := (hs i d.host).mpr ⟨d', hd', hdh'⟩
        rw [he] at he'
        rw [← Option.some.inj he'] at hei'
        rw [hei] at hei'
        exact hi hei'.symm
    · simp only [if_neg hi, if_neg hho]
      exact hs i h

lemma agrees_update_host (s : Connections) (c : ConnectedClient)
    (hs : s.agrees) (hc : alookup s.clients c.id = some c) :
    (s.update_host c).agrees := by
  obtain ⟨e, he, hei⟩ := (hs c.id c.host).mpr ⟨c, hc, rfl⟩
  intro i h
  simp only [Connections.update_host, alookup_ainsert]
  by_cases hi : i = c.id <;> by_cases hho : h = c.host
  · subst hi; subst hho
    constructor
    · intro _
      exact ⟨c, hc, rfl⟩
    · intro _
      exact ⟨c, by simp, rfl⟩
  · subst hi
    simp only [if_neg hho]
    constructor
    · rintro ⟨e', he', hei'⟩
      exfalso
      obtain ⟨d', hd', hdh'⟩ := (hs c.id h).mp ⟨e', he', hei'⟩
      rw [hc] at hd'
      rw [← Option.some.inj hd'] at hdh'
      exact hho hdh'.symm
    · rintro ⟨d', hd', hdh'⟩
      exfalso
      rw [hc] at hd'
      rw [← Option.some.inj hd'] at hdh'
      exact hho hdh'.symm
  · subst hho
    simp only [if_pos rfl, if_neg hi]
    constructor
    · rintro ⟨e', he', hei'⟩
      exfalso
      rw [← Option.some.inj he'] at hei'
      exact hi hei'.symm
    · rintro ⟨d', hd', hdh'⟩
      exfalso
      obtain ⟨e', he', hei'⟩ := (hs i c.host).mpr ⟨d', hd', hdh'⟩
      rw [he] at he'
      rw [← Option.some.inj he'] at hei'
      rw [hei] at hei'
      exact hi hei'.symm
  · simp only [if_neg hi, if_neg hho]
    exact hs i h

lemma agrees_run (ops : List RegistryOp) :
    ∀ s : Connections, s.agrees → s.safeTrace ops = true →
      (s.run ops).agrees := by
  induction ops with
  | nil =>
    intro s hs _
    exact hs
  | cons op ops ih =>
    intro s hs hsafe
    rw [Connections.safeTrace, Bool.and_eq_true] at hsafe
    obtain ⟨hok, hrest⟩ := hsafe
    refine ih (s.apply op) ?_ hrest
    cases op with
    | add c =>
      rw [Connections.okOp, Bool.and_eq_true] at hok
      exact agrees_add s c hs (elim_beq_of_true hok.1) (elim_beq_of_true hok.2)
    | remove c =>
      rw [Connections.okOp] at hok
      exact agrees_remove s c hs (elim_beq_of_true hok)
    | update_host c =>
      rw [Connections.okOp] at hok
      exact agrees_update_host s c hs (by simpa using hok)

lemma agrees_new : Connections.new.agrees := by
  intro i h
  simp [Connections.new, alookup]

end Tunnelto

/-- C3 (amended): after any sequence of `add`/`remove`/`update_host`
starting from empty registries that is free of conflicting
registrations — every `add c` runs while neither `clients[c.id]` nor
`hosts[c.host]` holds a client other than `c`, every `remove c` runs
while `clients[c.id]` holds `c` or nothing, and every `update_host c`
runs while `clients[c.id] = c` — the two maps agree: `hosts[h]` holds a
client with id `i` exactly when `clients[i]` holds a client with host
`h`.  (Unrestricted sequences violate the invariant, see the
counterexample.) -/
theorem Tunnelto.connections_registry_agreement (ops : List Tunnelto.RegistryOp)
    (h : Tunnelto.Connections.new.safeTrace ops = true) :
    (Tunnelto.Connections.new.run ops).agrees :=
  Tunnelto.agrees_run ops Tunnelto.Connections.new Tunnelto.agrees_new h

/-- Witness for C3 (amended): a concrete conflict-free trace — add a
client, refresh its host binding, remove it. -/
theorem Tunnelto.connections_registry_agreement_witness :
    Tunnelto.Connections.new.safeTrace
        [.add ⟨"a", "h1", false⟩, .update_host ⟨"a", "h1", false⟩,
         .add ⟨"b", "h2", true⟩, .remove ⟨"a", "h1", false⟩] = true ∧
      (Tunnelto.Connections.new.run
        [.add ⟨"a", "h1", false⟩, .update_host ⟨"a", "h1", false⟩,
         .add ⟨"b", "h2", true⟩, .remove ⟨"a", "h1", false⟩]).agrees :=
  ⟨by decide,
   Tunnelto.connections_registry_agreement
     [.add ⟨"a", "h1", false⟩, .update_host ⟨"a", "h1", false⟩,
      .add ⟨"b", "h2", true⟩, .remove ⟨"a", "h1", false⟩] (by decide)⟩

/-- C3 counterexample: the claim as stated fails on the code.  After
`add {id a, host h}` then `add {id b, host h}` (the re-bind that
`control_server.rs` performs when a sub-domain is taken over),
`clients["a"]` still has host `"h"` while `hosts["h"]` holds id `"b"`,
so the two maps disagree. -/
theorem Tunnelto.connections_registry_agreement_counterexample :
    ¬ (Tunnelto.Connections.new.run
        [.add ⟨"a", "h", false⟩, .add ⟨"b", "h", false⟩]).agrees := by
  intro hag
  have hmp := (hag "a" "h").mpr ⟨⟨"a", "h", false⟩, by decide, rfl⟩
  obtain ⟨e, he, hei⟩ := hmp
  have hcomp : Tunnelto.alookup
      (Tunnelto.Connections.new.run
        [.add ⟨"a", "h", false⟩, .add ⟨"b", "h", false⟩]).hosts "h" =
      some ⟨"b", "h", false⟩ := by decide
  rw [hcomp] at he
  rw [← Option.some.inj he] at hei
  exact absurd hei (by decide)

namespace Tunnelto

/-! ## Reconnect tokens (`tunnelto_server/src/auth/reconnect_token.rs`,
`tunnelto_server/src/auth/mod.rs`)

The token code composes external crates — serde_json, base64, hex and
HMAC-SHA256 — whose calls are modelled as an explicit primitive
interface `TokenPrims`; the round-trip laws of those primitives are
taken as hypotheses exactly where the Rust code relies on them.  The
repository's own logic (the order of the checks, which error each
failure maps to, and the strict `Utc::now() > payload.expires`
comparison) is translated literally.  `expires`/`now` are UTC instants
modelled as integers: comparison is the only operation the code
performs on them. -/

/-- `ReconnectTokenPayload` (`reconnect_token.rs:22-27`). -/
structure ReconnectTokenPayload where
  sub_domain : String
  client_id : String
  expires : Int
  deriving DecidableEq, Repr

/-- `ReconnectTokenInner` (`reconnect_token.rs:55-59`): the signed
bundle, a JSON payload string together with its hex-encoded MAC. -/
structure ReconnectTokenInner where
  payload : String
  sig : String
  deriving DecidableEq, Repr

/-- The external serialization / crypto primitives used by the token
code: serde_json (payload and inner bundle), base64, hex, and
HMAC-SHA256 keyed by the 32-byte master key. -/
structure TokenPrims where
  jsonEncPayload : ReconnectTokenPayload → String
  jsonDecPayload : String → Option ReconnectTokenPayload
  jsonEncInner : ReconnectTokenInner → List Nat
  jsonDecInner : List Nat → Option ReconnectTokenInner
  b64enc : List Nat → String
  b64dec : String → Option (List Nat)
  hexEnc : List Nat → String
  hexDec : String → Option (List Nat)
  hmac : List Nat → String → List Nat

/-- `Error` (`reconnect_token.rs:7-20`). -/
inductive TokenError where
  | json
  | base64
  | invalidSignature
  | expired
  deriving DecidableEq, Repr

/-- `SigKey::sign` (`auth/mod.rs:40-43`): hex-encode the HMAC-SHA256
of the data under the key. -/
def SigKey.sign (P : TokenPrims) (key : List Nat) (data : String) : String :=
  P.hexEnc (P.hmac key data)

/-- `SigKey::verify` (`auth/mod.rs:45-52`): hex-decode the signature
(returning `false` on bad hex) and compare it with the recomputed
MAC. -/
def SigKey.verify (P : TokenPrims) (key : List Nat) (data : String)
    (signature : String) : Bool :=
  (P.hexDec signature).elim false (fun s => s == P.hmac key data)

/-- `ReconnectTokenPayload::into_token` (`reconnect_token.rs:29-35`):
JSON-encode the payload, sign it, wrap payload and signature in the
inner bundle, JSON-encode that and base64 the result.  (The modelled
encoders are total, so the `serde_json` error paths cannot fire.) -/
def ReconnectTokenPayload.into_token (P : TokenPrims) (p : ReconnectTokenPayload)
    (key : List Nat) : String :=
  let payload := P.jsonEncPayload p
  let sig := SigKey.sign P key payload
  P.b64enc (P.jsonEncInner ⟨payload, sig⟩)

/-- `ReconnectTokenPayload::verify` (`reconnect_token.rs:37-52`):
base64-decode, parse the inner bundle, check the MAC, parse the
payload, then fail with `Expired` exactly when `now > payload.expires`
(strict). -/
def ReconnectTokenPayload.verify (P : TokenPrims) (tok : String)
    (key : List Nat) (now : Int) : Except TokenError ReconnectTokenPayload :=
  (P.b64dec tok).elim (.error .base64) (fun bytes =>
    (P.jsonDecInner bytes).elim (.error .json) (fun inner =>
      if SigKey.verify P key inner.payload inner.sig then
        (P.jsonDecPayload inner.payload).elim (.error .json) (fun payload =>
          if now > payload.expires then .error .expired
          else .ok payload)
      else .error .invalidSignature))

/-- A concrete instantiation of the primitives used by the concrete
theorems below.  It satisfies every round-trip law the token code
relies on at the inputs where it is used, and decodes the tampered
bundle `"T"` to an inner token with an invalid signature. -/
def trivPrims : TokenPrims where
  jsonEncPayload := fun _ => "P"
  jsonDecPayload := fun _ => some ⟨"s", "c", 0⟩
  jsonEncInner := fun _ => [0]
  jsonDecInner := fun bs =>
    if bs = [0] then some ⟨"P", "07"⟩
    else if bs = [1] then some ⟨"P", "xx"⟩
    else none
  b64enc := fun _ => "B"
  b64dec := fun s =>
    if s = "B" then some [0] else if s = "T" then some [1] else none
  hexEnc := fun _ => "07"
  hexDec := fun s => if s = "07" then some [7] else none
  hmac := fun _ _ => [7]

end Tunnelto

/-- C4 (amended): with the round-trip laws of the external codecs as
hypotheses, (1) `verify (sign p k) k now = Ok p` whenever
`p.expires ≥ now`; (2) it returns `Expired` whenever `p.expires < now`
(the code's comparison `Utc::now() > payload.expires` is strict, so a
token whose `expires` equals `now` still verifies); and (3) any token
whose decoded signed bundle fails the MAC check — in particular one
with a flipped byte in the signed payload — yields `InvalidSignature`
(a flip that instead breaks the base64 or JSON envelope yields the
`Base64`/`Json` error before the MAC is checked). -/
theorem Tunnelto.reconnect_token_verify_spec (P : Tunnelto.TokenPrims)
    (key : List Nat) (p : Tunnelto.ReconnectTokenPayload) (now : Int)
    (hb : P.b64dec (P.b64enc (P.jsonEncInner
      ⟨P.jsonEncPayload p, Tunnelto.SigKey.sign P key (P.jsonEncPayload p)⟩)) =
      some (P.jsonEncInner
      ⟨P.jsonEncPayload p, Tunnelto.SigKey.sign P key (P.jsonEncPayload p)⟩))
    (hj : P.jsonDecInner (P.jsonEncInner
      ⟨P.jsonEncPayload p, Tunnelto.SigKey.sign P key (P.jsonEncPayload p)⟩) =
      some ⟨P.jsonEncPayload p, Tunnelto.SigKey.sign P key (P.jsonEncPayload p)⟩)
    (hp : P.jsonDecPayload (P.jsonEncPayload p) = some p)
    (hh : P.hexDec (P.hexEnc (P.hmac key (P.jsonEncPayload p))) =
      some (P.hmac key (P.jsonEncPayload p))) :
    (now ≤ p.expires →
      Tunnelto.ReconnectTokenPayload.verify P
        (Tunnelto.ReconnectTokenPayload.into_token P p key) key now = .ok p) ∧
    (p.expires < now →
      Tunnelto.ReconnectTokenPayload.verify P
        (Tunnelto.ReconnectTokenPayload.into_token P p key) key now =
        .error .expired) ∧
    (∀ (tok : String) (bytes : List Nat) (inner : Tunnelto.ReconnectTokenInner),
      P.b64dec tok = some bytes →
      P.jsonDecInner bytes = some inner →
      Tunnelto.SigKey.verify P key inner.payload inner.sig = false →
      Tunnelto.ReconnectTokenPayload.verify P tok key now =
        .error .invalidSignature) := by
  have hsig : Tunnelto.SigKey.verify P key (P.jsonEncPayload p)
      (Tunnelto.SigKey.sign P key (P.jsonEncPayload p)) = true := by
    unfold Tunnelto.SigKey.verify Tunnelto.SigKey.sign
    rw [hh]
    simp
  refine ⟨?_, ?_, ?_⟩
  · intro hle
    unfold Tunnelto.ReconnectTokenPayload.verify
      Tunnelto.ReconnectTokenPayload.into_token
    rw [hb]
    simp only [Option.elim_some, hj, hsig, if_true, hp]
    rw [if_neg (by omega)]
  · intro hlt
    unfold Tunnelto.ReconnectTokenPayload.verify
      Tunnelto.ReconnectTokenPayload.into_token
    rw [hb]
    simp only [Option.elim_some, hj, hsig, if_true, hp]
    rw [if_pos (by omega)]
  · intro tok bytes inner htok hinner hfail
    unfold Tunnelto.ReconnectTokenPayload.verify
    rw [htok]
    simp only [Option.elim_some, hinner, hfail]
    simp

/-- Witness for C4 (amended): the concrete primitives `trivPrims`
satisfy all four round-trip hypotheses, a token with `expires = 1`
verifies at `now = 0` and expires at `now = 2`, and under
`tamperPrims` a bundle whose MAC check fails gives `InvalidSignature`. -/
theorem Tunnelto.reconnect_token_verify_spec_witness :
    Tunnelto.ReconnectTokenPayload.verify Tunnelto.trivPrims
        (Tunnelto.ReconnectTokenPayload.into_token Tunnelto.trivPrims
          ⟨"s", "c", 0⟩ [9]) [9] 0 = .ok ⟨"s", "c", 0⟩ ∧
      Tunnelto.ReconnectTokenPayload.verify Tunnelto.trivPrims
        (Tunnelto.ReconnectTokenPayload.into_token Tunnelto.trivPrims
          ⟨"s", "c", 0⟩ [9]) [9] 2 = .error .expired ∧
      Tunnelto.ReconnectTokenPayload.verify Tunnelto.trivPrims "T" [9] 0 =
        .error .invalidSignature :=
  ⟨(Tunnelto.reconnect_token_verify_spec Tunnelto.trivPrims [9] ⟨"s", "c", 0⟩ 0
      (by decide) (by decide) (by decide) (by decide)).1 (by decide),
   (Tunnelto.reconnect_token_verify_spec Tunnelto.trivPrims [9] ⟨"s", "c", 0⟩ 2
      (by decide) (by decide) (by decide) (by decide)).2.1 (by decide),
   (Tunnelto.reconnect_token_verify_spec Tunnelto.trivPrims [9] ⟨"s", "c", 0⟩ 0
      (by decide) (by decide) (by decide) (by decide)).2.2 "T" [1] ⟨"P", "xx"⟩
      (by decide) (by decide) (by decide)⟩

/-- C4 counterexample: the claim as stated says `verify` returns
`Expired` whenever `p.expires ≤ now`, but the code's check
(`reconnect_token.rs:47`) is the strict `Utc::now() > payload.expires`:
at `expires = now` (here both `0`) a freshly signed token still
verifies to `Ok p`.  The primitives are instantiated with `trivPrims`,
which satisfies every codec round-trip law the code relies on here;
the divergence is the repository's own comparison, independent of the
codecs. -/
theorem Tunnelto.reconnect_token_expiry_counterexample :
    Tunnelto.ReconnectTokenPayload.verify Tunnelto.trivPrims
        (Tunnelto.ReconnectTokenPayload.into_token Tunnelto.trivPrims
          ⟨"s", "c", 0⟩ [9]) [9] 0 = .ok ⟨"s", "c", 0⟩ ∧
      Tunnelto.ReconnectTokenPayload.verify Tunnelto.trivPrims
        (Tunnelto.ReconnectTokenPayload.into_token Tunnelto.trivPrims
          ⟨"s", "c", 0⟩ [9]) [9] 0 ≠ .error .expired := by
  constructor
  · decide
  · decide

namespace Tunnelto

/-! ## Client handshake (`tunnelto_server/src/auth/client_auth.rs`)

`auth_client` is modelled as a pure function from a parsed `ClientHello`
to the optional accepted handshake, together with the list of its
observable effects (server-hello replies sent on the socket, the gossip
pre-check, and the `AuthService::auth_sub_domain` call), in program
order.  Returning `none` corresponds to the Rust `return None`, after
which the caller drops the connection.

The external collaborators are parameters of an `AuthEnv`: the
configured block list, the gossip lookup `network::instance_for_host`,
the `AuthService`, `SecretKey::client_id`, `ServerHello::random_domain`
and `ReconnectTokenPayload::verify(·, CONFIG.master_sig_key)` evaluated
at the instant of the handshake. -/

/-- The `ServerHello` enum (`tunnelto_lib/src/lib.rs:30-42`). -/
inductive ServerHello where
  | success (sub_domain hostname client_id : String)
  | subDomainInUse
  | invalidSubDomain
  | authFailed
  | error (msg : String)
  deriving DecidableEq, Repr

/-- The `Error` enum of `tunnelto_server/src/network/mod.rs:14-27`. -/
inductive NetError where
  | ioError
  | request
  | resolver
  | doesNotServeHost
  deriving DecidableEq, Repr

/-- `AuthResult` (`tunnelto_server/src/auth/mod.rs:69-76`). -/
inductive AuthResult where
  | reservedByYou
  | reservedByOther
  | reservedByYouButDelinquent
  | paymentRequired
  | available
  deriving DecidableEq, Repr

/-- `ClientType` (`tunnelto_lib/src/lib.rs:90-94`); the key is the
secret-key string. -/
inductive ClientType where
  | auth (key : String)
  | anonymous
  deriving DecidableEq, Repr

/-- `ClientHello` (`tunnelto_lib/src/lib.rs:61-68`); the deprecated
random `id` field is unused by the server and omitted. -/
structure ClientHello where
  sub_domain : Option String
  client_type : ClientType
  reconnect_token : Option String
  deriving DecidableEq, Repr

/-- `ClientHandshake` (`client_auth.rs:9-13`). -/
structure ClientHandshake where
  id : String
  sub_domain : String
  is_anonymous : Bool
  deriving DecidableEq, Repr

/-- An observable effect of the handshake code, in program order. -/
inductive AuthEffect where
  | sentReply (r : ServerHello)
  | calledNetwork (sub : String)
  | calledAuthDb (key sub : String)
  deriving DecidableEq, Repr

/-- The external collaborators of `auth_client`. -/
structure AuthEnv where
  blocked_sub_domains : List String
  network : String → Except NetError (String × String)
  auth_sub_domain : String → String → Except Unit AuthResult
  key_client_id : String → String
  random_domain : String
  verify_token : String → Except TokenError ReconnectTokenPayload

/-- Modelled from Rust's `char::is_alphanumeric` (true on the Unicode
`Alphabetic` and `Nd`/`Nl`/`No` categories), written out for the Basic
Latin and Latin-1 Supplement blocks: ASCII digits and letters, the
Latin-1 letters `ª µ º` and `À`-`ÿ` except `×` and `÷`, and the Latin-1
numeric characters `² ³ ¹ ¼ ½ ¾`.  Characters above U+00FF are mapped
to `false`; no theorem below evaluates the predicate there. -/
def char_is_alphanumeric (c : Char) : Bool :=
  let n := c.toNat
  (0x30 ≤ n && n ≤ 0x39) || (0x41 ≤ n && n ≤ 0x5A) || (0x61 ≤ n && n ≤ 0x7A) ||
    n == 0xAA || n == 0xB5 || n == 0xBA ||
    n == 0xB2 || n == 0xB3 || n == 0xB9 || (0xBC ≤ n && n ≤ 0xBE) ||
    (0xC0 ≤ n && n ≤ 0xFF && n != 0xD7 && n != 0xF7)

/-- Modelled from Rust's `str::to_lowercase`, written out for the Basic
Latin and Latin-1 Supplement blocks: `A`-`Z` and `À`-`Þ` (except `×`)
shift down by 0x20, everything else in these blocks is already
caseless or lowercase and is kept.  (The special cases outside these
blocks, e.g. `µ` → `μ`, are not exercised by any theorem below.) -/
def char_to_lowercase (c : Char) : Char :=
  let n := c.toNat
  if 0x41 ≤ n && n ≤ 0x5A then Char.ofNat (n + 0x20)
  else if 0xC0 ≤ n && n ≤ 0xDE && n != 0xD7 then Char.ofNat (n + 0x20)
  else c

/-- `str::to_lowercase`, charwise via `char_to_lowercase`. -/
def str_to_lowercase (s : String) : String :=
  String.mk (s.data.map char_to_lowercase)

/-- The `match` on `crate::network::instance_for_host(&sub_domain)` at
`client_auth.rs:205-218`: an owner with a different client id means
`SubDomainInUse`; `DoesNotServeHost` and any other lookup error fall
through to acceptance. -/
def gossip_pre_check (sub_domain client_id : String) :
    Except NetError (String × String) → List AuthEffect × Option String
  | .error .doesNotServeHost => ([.calledNetwork sub_domain], some sub_domain)
  | .ok (_, existing_client) =>
    if existing_client ≠ client_id then
      ([.calledNetwork sub_domain, .sentReply .subDomainInUse], none)
    else
      ([.calledNetwork sub_domain], some sub_domain)
  | .error _ => ([.calledNetwork sub_domain], some sub_domain)

/-- `sanitize_sub_domain_and_pre_validate` (`client_auth.rs:175-221`):
lowercase the request; reject with `InvalidSubDomain` when any
character is neither alphanumeric nor `-`; reject with `SubDomainInUse`
when the sub-domain is in the configured block list; then run the
gossip pre-check. -/
def sanitize_sub_domain_and_pre_validate (env : AuthEnv)
    (requested_sub_domain : String) (client_id : String) :
    List AuthEffect × Option String :=
  let sub_domain := str_to_lowercase requested_sub_domain
  if 0 < (sub_domain.data.filter
      (fun c => !(char_is_alphanumeric c || c == '-'))).length then
    ([.sentReply .invalidSubDomain], none)
  else if env.blocked_sub_domains.contains sub_domain then
    ([.sentReply .subDomainInUse], none)
  else
    gossip_pre_check sub_domain client_id (env.network sub_domain)

/-- `handle_reconnect_token` (`client_auth.rs:145-173`): a token that
fails verification yields `AuthFailed`; a valid one binds the
`sub_domain` and `client_id` carried in its payload, with
`is_anonymous = true`. -/
def handle_reconnect_token (env : AuthEnv) (token : String) :
    List AuthEffect × Option ClientHandshake :=
  match env.verify_token token with
  | .error _ => ([.sentReply .authFailed], none)
  | .ok payload => ([], some ⟨payload.client_id, payload.sub_domain, true⟩)

/-- The tail of `auth_client` (`client_auth.rs:103-143`): call
`AUTH_DB_SERVICE.auth_sub_domain(key, requested_sub_domain)`;
`Available`/`ReservedByYou` accept (with `is_anonymous = false`),
`ReservedByYouButDelinquent`/`PaymentRequired` and service errors send
`AuthFailed`, `ReservedByOther` sends `SubDomainInUse`. -/
def auth_sub_domain_step (env : AuthEnv) (key client_id : String)
    (requested_sub_domain : String) (effs : List AuthEffect) :
    List AuthEffect × Option ClientHandshake :=
  let effs := effs ++ [.calledAuthDb key requested_sub_domain]
  match env.auth_sub_domain key requested_sub_domain with
  | .ok .available | .ok .reservedByYou =>
    (effs, some ⟨client_id, requested_sub_domain, false⟩)
  | .ok .reservedByYouButDelinquent | .ok .paymentRequired =>
    (effs ++ [.sentReply .authFailed], none)
  | .ok .reservedByOther => (effs ++ [.sentReply .subDomainInUse], none)
  | .error _ => (effs ++ [.sentReply .authFailed], none)

/-- `auth_client` (`client_auth.rs:31-143`) on a parsed `ClientHello`.
`ClientType::Anonymous` is refused outright with `AuthFailed` — the
reconnect-token branch of the `Anonymous` arm is commented out in the
source.  `ClientType::Auth` with a requested sub-domain goes through
`sanitize_sub_domain_and_pre_validate`; with no sub-domain it takes the
reconnect token if one is present and a fresh random domain
otherwise. -/
def auth_client (env : AuthEnv) (hello : ClientHello) :
    List AuthEffect × Option ClientHandshake :=
  match hello.client_type with
  | .anonymous => ([.sentReply .authFailed], none)
  | .auth key =>
    match hello.sub_domain with
    | some requested_sub_domain =>
      let client_id := env.key_client_id key
      match sanitize_sub_domain_and_pre_validate env requested_sub_domain
          client_id with
      | (effs, none) => (effs, none)
      | (effs, some sub_domain) =>
        auth_sub_domain_step env key client_id sub_domain effs
    | none =>
      match hello.reconnect_token with
      | some token => handle_reconnect_token env token
      | none =>
        auth_sub_domain_step env key (env.key_client_id key)
          env.random_domain []

/-- A concrete environment for the concrete theorems below: nothing
blocked, gossip finds no owner, the auth service reports every
sub-domain available, and every reconnect token verifies to the payload
`{sub_domain := "abcd1234", client_id := "cid0", expires := 100}`. -/
def env0 : AuthEnv where
  blocked_sub_domains := []
  network := fun _ => .error .doesNotServeHost
  auth_sub_domain := fun _ _ => .ok .available
  key_client_id := fun k => k ++ "-id"
  random_domain := "rnd00000"
  verify_token := fun _ => .ok ⟨"abcd1234", "cid0", 100⟩

end Tunnelto

/-- C1 (amended): the server refuses every `Anonymous` hello outright
with `AuthFailed` — the reconnect branch of the `Anonymous` arm is
commented out in `client_auth.rs:52-72` — and a valid (verifying,
unexpired) reconnect token instead binds the `{sub_domain, client_id}`
of its payload with `is_anonymous = true` when presented by a
`ClientType::Auth` hello with no requested sub-domain
(`client_auth.rs:91-93` and `handle_reconnect_token`). -/
theorem Tunnelto.auth_client_reconnect_binding (env : Tunnelto.AuthEnv) :
    (∀ hello : Tunnelto.ClientHello, hello.client_type = .anonymous →
      Tunnelto.auth_client env hello = ([.sentReply .authFailed], none)) ∧
    (∀ (key token : String) (payload : Tunnelto.ReconnectTokenPayload),
      env.verify_token token = .ok payload →
      Tunnelto.auth_client env ⟨none, .auth key, some token⟩ =
        ([], some ⟨payload.client_id, payload.sub_domain, true⟩)) := by
  constructor
  · rintro ⟨sd, ct, rt⟩ hct
    cases hct
    rfl
  · intro key token payload hv
    simp [auth_client, handle_reconnect_token, hv]

/-- Witness for C1 (amended): under `env0` (whose tokens all verify to
`{sub_domain := "abcd1234", client_id := "cid0"}`) an anonymous hello is
refused and an `Auth` hello with only a token is bound to the token's
payload. -/
theorem Tunnelto.auth_client_reconnect_binding_witness :
    Tunnelto.auth_client Tunnelto.env0 ⟨none, .anonymous, none⟩ =
        ([.sentReply .authFailed], none) ∧
      Tunnelto.auth_client Tunnelto.env0 ⟨none, .auth "k", some "tok"⟩ =
        ([], some ⟨"cid0", "abcd1234", true⟩) :=
  ⟨(Tunnelto.auth_client_reconnect_binding Tunnelto.env0).1
      ⟨none, .anonymous, none⟩ rfl,
   (Tunnelto.auth_client_reconnect_binding Tunnelto.env0).2
      "k" "tok" ⟨"abcd1234", "cid0", 100⟩ (by decide)⟩

/-- C1 counterexample: an `Anonymous` hello carrying a reconnect token
that verifies successfully (under `env0` every token does) is still
refused with `AuthFailed` and no handshake is produced — the server
does not bind the token's `{sub_domain, client_id}` for anonymous
clients, contrary to the claim. -/
theorem Tunnelto.auth_client_anonymous_counterexample :
    Tunnelto.env0.verify_token "tok" = .ok ⟨"abcd1234", "cid0", 100⟩ ∧
      Tunnelto.auth_client Tunnelto.env0 ⟨none, .anonymous, some "tok"⟩ =
        ([.sentReply .authFailed], none) := by
  constructor
  · decide
  · rfl

lemma Tunnelto.gossip_pre_check_cases (sub cid : String)
    (r : Except Tunnelto.NetError (String × String)) :
    Tunnelto.gossip_pre_check sub cid r = ([.calledNetwork sub], some sub) ∨
      Tunnelto.gossip_pre_check sub cid r =
        ([.calledNetwork sub, .sentReply .subDomainInUse], none) := by
  rcases r with e | v
  · cases e <;> simp [gossip_pre_check]
  · obtain ⟨i, ec⟩ := v
    by_cases hec : ec = cid <;> simp [gossip_pre_check, hec]

/-- C5 (amended): `sanitize_sub_domain_and_pre_validate` lowercases the
request, and its character filter accepts exactly the strings whose
characters are Unicode-alphanumeric or `-` — a strict superset of
`[a-z0-9-]`, because Rust's `char::is_alphanumeric` is Unicode-wide —
rejecting all others with `InvalidSubDomain`.  Concretely: `Foo` and
`foo` both canonicalize to `foo` (same owner), `foo_bar` is rejected
with `InvalidSubDomain`, and `foo-bar` is accepted. -/
theorem Tunnelto.sanitize_sub_domain_spec :
    (∀ (env : Tunnelto.AuthEnv) (req cid : String),
      Tunnelto.sanitize_sub_domain_and_pre_validate env req cid =
          ([.sentReply .invalidSubDomain], none) ↔
        0 < ((Tunnelto.str_to_lowercase req).data.filter
          (fun c => !(Tunnelto.char_is_alphanumeric c || c == '-'))).length) ∧
    (∀ (env : Tunnelto.AuthEnv) (req cid sd : String)
        (effs : List Tunnelto.AuthEffect),
      Tunnelto.sanitize_sub_domain_and_pre_validate env req cid =
          (effs, some sd) →
      sd = Tunnelto.str_to_lowercase req) ∧
    Tunnelto.sanitize_sub_domain_and_pre_validate Tunnelto.env0 "Foo" "c" =
      Tunnelto.sanitize_sub_domain_and_pre_validate Tunnelto.env0 "foo" "c" ∧
    Tunnelto.sanitize_sub_domain_and_pre_validate Tunnelto.env0 "foo_bar" "c" =
      ([.sentReply .invalidSubDomain], none) ∧
    (Tunnelto.sanitize_sub_domain_and_pre_validate Tunnelto.env0 "foo-bar"
      "c").2 = some "foo-bar" := by
  refine ⟨?_, ?_, by decide, by decide, by decide⟩
  · intro env req cid
    simp only [Tunnelto.sanitize_sub_domain_and_pre_validate]
    by_cases hc : 0 < ((Tunnelto.str_to_lowercase req).data.filter
        (fun c => !(Tunnelto.char_is_alphanumeric c || c == '-'))).length
    · rw [if_pos hc]
      exact iff_of_true rfl hc
    · rw [if_neg hc]
      refine iff_of_false ?_ hc
      intro hEq
      split at hEq
      · simp at hEq
      · rcases Tunnelto.gossip_pre_check_cases (Tunnelto.str_to_lowercase req)
            cid (env.network (Tunnelto.str_to_lowercase req)) with hg | hg <;>
          rw [hg] at hEq <;> simp at hEq
  · intro env req cid sd effs h
    simp only [Tunnelto.sanitize_sub_domain_and_pre_validate] at h
    by_cases hc : 0 < ((Tunnelto.str_to_lowercase req).data.filter
        (fun c => !(Tunnelto.char_is_alphanumeric c || c == '-'))).length
    · rw [if_pos hc] at h
      simp at h
    · rw [if_neg hc] at h
      split at h
      · simp at h
      · rcases Tunnelto.gossip_pre_check_cases (Tunnelto.str_to_lowercase req)
            cid (env.network (Tunnelto.str_to_lowercase req)) with hg | hg <;>
          rw [hg] at h
        · rw [Prod.mk.injEq] at h
          exact (Option.some.inj h.2).symm
        · simp at h

/-- Witness for C5 (amended): the lowercasing clause applied to the
concrete request `Foo` (accepted as `foo`), and the rejection clause
applied to `foo_bar`. -/
theorem Tunnelto.sanitize_sub_domain_spec_witness :
    "foo" = Tunnelto.str_to_lowercase "Foo" ∧
      0 < ((Tunnelto.str_to_lowercase "foo_bar").data.filter
        (fun c => !(Tunnelto.char_is_alphanumeric c || c == '-'))).length :=
  ⟨Tunnelto.sanitize_sub_domain_spec.2.1 Tunnelto.env0 "Foo" "c" "foo"
      [.calledNetwork "foo"] (by decide),
   (Tunnelto.sanitize_sub_domain_spec.1 Tunnelto.env0 "foo_bar" "c").mp
      (by decide)⟩

/-- C5 counterexample: the claim says every string containing a
character outside `[a-z0-9-]` is rejected with `InvalidSubDomain`, but
the code's filter is Rust's Unicode `char::is_alphanumeric`: the
request `"é"` — whose single character is not in `[a-z0-9-]` — passes
the filter and is accepted. -/
theorem Tunnelto.sanitize_sub_domain_counterexample :
    (∀ c ∈ "é".data,
      ¬(('a' ≤ c ∧ c ≤ 'z') ∨ ('0' ≤ c ∧ c ≤ '9') ∨ c = '-')) ∧
      Tunnelto.sanitize_sub_domain_and_pre_validate Tunnelto.env0 "é" "c" =
        ([.calledNetwork "é"], some "é") := by
  constructor
  · decide
  · decide

/-- C10: an `Auth` handshake requesting a sub-domain that passes the
character filter but lies in the configured `blocked_sub_domains` list
is answered with `ServerHello::SubDomainInUse` (not
`InvalidSubDomain`) and refused — the effect list shows the reply is
the only effect, so `auth_sub_domain` is never called on the auth
service and the gossip layer is never consulted; the `none` result
makes the caller drop the connection. -/
theorem Tunnelto.blocked_sub_domain_in_use (env : Tunnelto.AuthEnv)
    (key req : String) (rt : Option String)
    (hchars : ((Tunnelto.str_to_lowercase req).data.filter
      (fun c => !(Tunnelto.char_is_alphanumeric c || c == '-'))).length = 0)
    (hblocked : env.blocked_sub_domains.contains
      (Tunnelto.str_to_lowercase req) = true) :
    Tunnelto.auth_client env ⟨some req, .auth key, rt⟩ =
      ([.sentReply .subDomainInUse], none) := by
  have hsan : Tunnelto.sanitize_sub_domain_and_pre_validate env req
      (env.key_client_id key) = ([.sentReply .subDomainInUse], none) := by
    simp only [Tunnelto.sanitize_sub_domain_and_pre_validate]
    rw [if_neg (by omega), if_pos (by simpa using hblocked)]
  simp [auth_client, hsan]

/-- Witness for C10: with `blocked_sub_domains = ["admin"]`, the
request `Admin` (lowercased to `admin`) is refused with
`SubDomainInUse` and no auth-service call. -/
theorem Tunnelto.blocked_sub_domain_in_use_witness :
    Tunnelto.auth_client
        { Tunnelto.env0 with blocked_sub_domains := ["admin"] }
        ⟨some "Admin", .auth "k", none⟩ =
      ([.sentReply .subDomainInUse], none) :=
  Tunnelto.blocked_sub_domain_in_use
    { Tunnelto.env0 with blocked_sub_domains := ["admin"] }
    "k" "Admin" none (by decide) (by decide)

namespace Tunnelto

/-! ## Per-client control pump (`tunnelto_server/src/control_server.rs`)

`process_client_messages` is modelled as a pure function from the
finite list of websocket messages the connection yields to the list of
its observable effects, in program order.  The end of the input list
models `client_conn.next()` returning `None` (transport close), which
hits the catch-all arm.  Stream presence (`ACTIVE_STREAMS.get`) is a
parameter. -/

/-- `StreamMessage` (`tunnelto_server/src/active_stream.rs:25-30`). -/
inductive StreamMessage where
  | data (bytes : List Nat)
  | tunnelRefused
  | noClientTunnel
  deriving DecidableEq, Repr

/-- A websocket message as the pump's guards classify it: a non-close
binary/text frame with its bytes, a close frame with a reason, or
anything else (errors, pongs, empty close frames, ...). -/
inductive WsMessage where
  | frame (bytes : List Nat)
  | closeWithReason
  | other
  deriving DecidableEq, Repr

/-- An observable effect of the per-client pump, in program order. -/
inductive PumpEffect where
  | removedClient
  | loggedProtocolError
  | loggedIllegalFrame
  | sentToStream (sid : StreamId) (msg : StreamMessage)
  | reAddedClient
  deriving DecidableEq, Repr

/-- `process_client_messages` (`control_server.rs:190-248`): the
catch-all arm (`None`, close frames, empty or non-binary messages)
removes the client and returns; a frame that fails
`ControlPacket::deserialize` is logged and skipped (`continue`);
`Data`/`Refused` are forwarded to the stream's channel when the stream
is registered; `Init`/`End` from the client are logged as protocol
errors and skipped; `Ping` re-adds the client to the registries. -/
def process_client_messages (streams : StreamId → Bool) :
    List WsMessage → List PumpEffect
  | [] => [.removedClient]
  | msg :: rest =>
    match msg with
    | .closeWithReason => [.removedClient]
    | .other => [.removedClient]
    | .frame bytes =>
      if bytes.isEmpty then [.removedClient]
      else
        match ControlPacket.deserialize bytes with
        | .error _ =>
          .loggedProtocolError :: process_client_messages streams rest
        | .ok (.data sid d) =>
          (if streams sid then [.sentToStream sid (.data d)] else []) ++
            process_client_messages streams rest
        | .ok (.refused sid) =>
          (if streams sid then [.sentToStream sid .tunnelRefused] else []) ++
            process_client_messages streams rest
        | .ok (.init _) =>
          .loggedIllegalFrame :: process_client_messages streams rest
        | .ok (.end_ _) =>
          .loggedIllegalFrame :: process_client_messages streams rest
        | .ok (.ping _) =>
          .reAddedClient :: process_client_messages streams rest

end Tunnelto

/-- C7 (amended): a frame that fails `ControlPacket::deserialize` is
logged and *skipped* — the pump `continue`s and the control connection
stays open; the client is removed (connection closed) only when the
websocket yields `None`, a close frame, or an empty/non-protocol
message. -/
theorem Tunnelto.pump_protocol_error_skips (streams : Tunnelto.StreamId → Bool)
    (bytes : List Nat) (e : String) (rest : List Tunnelto.WsMessage)
    (hne : bytes.isEmpty = false)
    (herr : Tunnelto.ControlPacket.deserialize bytes = .error e) :
    Tunnelto.process_client_messages streams (.frame bytes :: rest) =
        .loggedProtocolError ::
          Tunnelto.process_client_messages streams rest ∧
      Tunnelto.process_client_messages streams [] = [.removedClient] ∧
      Tunnelto.process_client_messages streams [.closeWithReason] =
        [.removedClient] := by
  refine ⟨?_, rfl, rfl⟩
  simp [Tunnelto.process_client_messages, hne, herr]

/-- Witness for C7 (amended): the undersized frame `[0x01]` is skipped
and the connection keeps processing. -/
theorem Tunnelto.pump_protocol_error_skips_witness :
    Tunnelto.process_client_messages (fun _ => false) [.frame [0x01]] =
        .loggedProtocolError ::
          Tunnelto.process_client_messages (fun _ => false) [] ∧
      Tunnelto.process_client_messages (fun _ => false) [] =
        [.removedClient] ∧
      Tunnelto.process_client_messages (fun _ => false) [.closeWithReason] =
        [.removedClient] :=
  Tunnelto.pump_protocol_error_skips (fun _ => false) [0x01]
    "invalid DataPacket, missing stream id" [] (by decide) (by decide)

/-- C7 counterexample: the claim says the pump terminates the
connection on every frame failing `deserialize`, but after the bad
frame `[0x01]` the pump still processes the following `Ping` frame
(the `reAddedClient` effect appears after the protocol error, and the
client is removed only at transport close). -/
theorem Tunnelto.pump_protocol_error_counterexample :
    (Tunnelto.ControlPacket.deserialize [0x01]).isOk = false ∧
      Tunnelto.process_client_messages (fun _ => false)
          [.frame [0x01],
           .frame (Tunnelto.ControlPacket.serialize (.ping none))] =
        [.loggedProtocolError, .reAddedClient, .removedClient] := by
  constructor
  · decide
  · decide

namespace Tunnelto

/-! ## Gossip peer lookup (`tunnelto_server/src/network/mod.rs`) and the
edge's miss branch (`tunnelto_server/src/remote.rs:69-90`)

Each peer's HTTP query is summarized by its outcome: a reqwest-level
failure (timeout, transport, or bad JSON — all surfacing as
`Error::Request` through the `?` operators) or an HTTP reply with a
status and an optional `client_id`.  `futures::future::select_ok`
resolves to the first successful future in completion order, or, when
every future fails, to the error of the last one to fail; completion
order is scheduler-dependent, and the list order below models one
admissible order (the concrete theorems only use a single peer, where
order is irrelevant). -/

/-- One peer's query outcome as `serves_host` observes it. -/
inductive PeerOutcome where
  | requestError
  | reply (status : Nat) (client_id : Option String)
  deriving DecidableEq, Repr

/-- `Instance::serves_host` (`network/mod.rs:57-87`): request failures
propagate as `Request` errors; a `200` reply with a non-null
`client_id` wins; anything else is `DoesNotServeHost`. -/
def serves_host (inst : String) : PeerOutcome →
    Except NetError (String × String)
  | .requestError => .error .request
  | .reply status client_id =>
    match status, client_id with
    | 200, some c => .ok (inst, c)
    | _, _ => .error .doesNotServeHost

/-- `futures::future::select_ok` over the modelled completion order:
first success wins; if all fail, the last error is returned. -/
def select_ok : List (Except NetError (String × String)) →
    Except NetError (String × String)
  | [] => .error .doesNotServeHost
  | [r] => r
  | .ok v :: _ => .ok v
  | .error _ :: r :: rest => select_ok (r :: rest)

/-- `instance_for_host` (`network/mod.rs:92-105`): resolver failures
propagate; an empty instance list is `DoesNotServeHost`; otherwise the
`select_ok` of the per-peer queries.  The input is the outcome of
`Instance::get_instances` together with each instance's query
outcome. -/
def instance_for_host
    (inst_result : Except NetError (List (String × PeerOutcome))) :
    Except NetError (String × String) :=
  match inst_result with
  | .error e => .error e
  | .ok instances =>
    let results := instances.map (fun io => serves_host io.1 io.2)
    if results.length = 0 then .error .doesNotServeHost
    else select_ok results

/-- An observable action of the edge's registry-miss branch. -/
inductive EdgeAction where
  | proxied (instanceIp : String)
  | wrote404
  | wrote500
  deriving DecidableEq, Repr

/-- The registry-miss branch of `accept_connection`
(`remote.rs:69-90`): a peer that serves the host gets the raw proxy;
`DoesNotServeHost` answers the 404 body; any other lookup error
answers the 500 `HTTP_ERROR_LOCATING_HOST_RESPONSE` body. -/
def edge_route_miss (r : Except NetError (String × String)) : EdgeAction :=
  match r with
  | .ok (inst, _) => .proxied inst
  | .error .doesNotServeHost => .wrote404
  | .error _ => .wrote500

lemma select_ok_all_dnsh (rs : List (Except NetError (String × String)))
    (hall : ∀ r ∈ rs, r = .error .doesNotServeHost) :
    select_ok rs = .error .doesNotServeHost := by
  induction rs with
  | nil => rfl
  | cons r rest ih =>
    rcases rest with _ | ⟨r2, rest2⟩
    · simpa [select_ok] using hall r (by simp)
    · have hr := hall r (by simp)
      subst hr
      rw [select_ok]
      exact ih (fun x hx => hall x (by simp [hx]))

end Tunnelto

/-- C8 (amended): `instance_for_host` returns `DoesNotServeHost` when
there are no peer instances, or when every peer fails *with a non-200
status or a null `client_id`*; the edge answers `DoesNotServeHost`
with the 404 body.  But a peer failing with a timeout/transport/JSON
error surfaces as a `Request` error (and resolver failures as a
`Resolver` error), which the edge answers with the 500
error-locating-host body, not 404. -/
theorem Tunnelto.gossip_all_fail_spec :
    Tunnelto.instance_for_host (.ok []) = .error .doesNotServeHost ∧
    (∀ peers : List (String × Tunnelto.PeerOutcome),
      (∀ io ∈ peers, Tunnelto.serves_host io.1 io.2 =
        .error .doesNotServeHost) →
      Tunnelto.instance_for_host (.ok peers) = .error .doesNotServeHost) ∧
    Tunnelto.edge_route_miss (.error .doesNotServeHost) = .wrote404 ∧
    (∀ e : Tunnelto.NetError, e ≠ .doesNotServeHost →
      Tunnelto.edge_route_miss (.error e) = .wrote500) := by
  refine ⟨rfl, ?_, rfl, ?_⟩
  · intro peers hall
    rcases peers with _ | ⟨p, rest⟩
    · rfl
    · simp only [Tunnelto.instance_for_host]
      rw [if_neg (by simp)]
      exact Tunnelto.select_ok_all_dnsh _ (by
        intro r hr
        obtain ⟨io, hio, hmap⟩ := List.mem_map.mp hr
        rw [← hmap]
        exact hall io hio)
  · intro e he
    cases e <;> simp [Tunnelto.edge_route_miss] at he ⊢

/-- Witness for C8 (amended): one peer answering `200` with a null
`client_id` fails the lookup as `DoesNotServeHost`, and the edge
answers 404; a `Request` error is answered with 500. -/
theorem Tunnelto.gossip_all_fail_spec_witness :
    Tunnelto.instance_for_host
        (.ok [("10.0.0.1", .reply 200 none)]) = .error .doesNotServeHost ∧
      Tunnelto.edge_route_miss (.error .request) = .wrote500 :=
  ⟨Tunnelto.gossip_all_fail_spec.2.1 [("10.0.0.1", .reply 200 none)]
      (by decide),
   Tunnelto.gossip_all_fail_spec.2.2.2 .request (by decide)⟩

/-- C8 counterexample: a single peer whose query times out makes
`instance_for_host` return the `Request` error — not
`DoesNotServeHost` — and the edge answers it with the 500
error-locating-host body, not the claimed 404. -/
theorem Tunnelto.gossip_all_fail_counterexample :
    Tunnelto.instance_for_host (.ok [("10.0.0.1", .requestError)]) =
        .error .request ∧
      Tunnelto.edge_route_miss
          (Tunnelto.instance_for_host (.ok [("10.0.0.1", .requestError)])) =
        .wrote500 ∧
      Tunnelto.edge_route_miss
          (Tunnelto.instance_for_host (.ok [("10.0.0.1", .requestError)])) ≠
        .wrote404 := by
  refine ⟨rfl, rfl, by decide⟩

namespace Tunnelto

/-! ## Edge stream lifecycle (`tunnelto_server/src/remote.rs:246-347`)

The two splice tasks are modelled as pure functions from the finite
trace of events each observes to the list of its observable actions, in
program order.

* `process_tcp_stream` (public → client) consumes one event per loop
  iteration: the registry lookup of the owning client coming back empty,
  a read error, a read of `n` bytes with the success of the subsequent
  channel send, or EOF (`n = 0`).  An exhausted trace means the loop is
  still running (no further observable actions in the modelled window).
* `tunnel_to_stream` (client → public) consumes queue events: a `Data`
  message with the success of the socket write, `TunnelRefused`,
  `NoClientTunnel`; the end of the trace models the queue closing
  (`queue.next()` returning `None`). -/

/-- One iteration's worth of input to `process_tcp_stream`. -/
inductive TcpEvent where
  | clientGone
  | readErr
  | readData (bytes : List Nat) (sendOk : Bool)
  | readEof
  deriving DecidableEq, Repr

/-- One queue event observed by `tunnel_to_stream`. -/
inductive QueueEvent where
  | data (bytes : List Nat) (writeOk : Bool)
  | tunnelRefused
  | noClientTunnel
  deriving DecidableEq, Repr

/-- An observable action of the two splice tasks, in program order. -/
inductive EdgeStreamAction where
  | sentInit
  | sentNoClientTunnel
  | closedStreamChannel
  | sentEnd
  | sentData (bytes : List Nat)
  | removedClient
  | wroteToSocket (bytes : List Nat)
  | wrote500
  | wrote404
  | shutdownSocket
  | removedFromStreams
  deriving DecidableEq, Repr

/-- The loop of `process_tcp_stream` (`remote.rs:253-296`): a missing
client sends `NoClientTunnel` and closes the stream channel; a read
error returns silently; EOF sends `End(sid)` on the client's channel
and returns; data is wrapped as a `Data` packet and sent, a failed
send removing the client from the registries and continuing. -/
def process_tcp_stream_loop : List TcpEvent → List EdgeStreamAction
  | [] => []
  | .clientGone :: _ => [.sentNoClientTunnel, .closedStreamChannel]
  | .readErr :: _ => []
  | .readEof :: _ => [.sentEnd]
  | .readData bytes sendOk :: rest =>
    if sendOk then .sentData bytes :: process_tcp_stream_loop rest
    else .sentData bytes :: .removedClient :: process_tcp_stream_loop rest

/-- `process_tcp_stream` (`remote.rs:246-297`): send the stream-init
control packet to the client, then run the read loop.  Note that no
path of this function removes the stream id from `ACTIVE_STREAMS`. -/
def process_tcp_stream (evs : List TcpEvent) : List EdgeStreamAction :=
  .sentInit :: process_tcp_stream_loop evs

/-- `tunnel_to_stream` (`remote.rs:299-347`): drain the stream's queue;
`Data` is written to the public socket, a failed write returning
*without* touching `ACTIVE_STREAMS`; `TunnelRefused` writes the fixed
500 body and `NoClientTunnel` the 404 body; those two and a closed
queue shut the socket down and remove the id from `ACTIVE_STREAMS`. -/
def tunnel_to_stream : List QueueEvent → List EdgeStreamAction
  | [] => [.shutdownSocket, .removedFromStreams]
  | .tunnelRefused :: _ => [.wrote500, .shutdownSocket, .removedFromStreams]
  | .noClientTunnel :: _ => [.wrote404, .shutdownSocket, .removedFromStreams]
  | .data bytes writeOk :: rest =>
    if writeOk then .wroteToSocket bytes :: tunnel_to_stream rest
    else [.wroteToSocket bytes]

/-- `tunnel_to_stream` reaches its clean shutdown (and so removes the
stream from the map) exactly when no `Data` write fails before the
queue closes or a terminating message arrives. -/
def stopsClean : List QueueEvent → Bool
  | [] => true
  | .tunnelRefused :: _ => true
  | .noClientTunnel :: _ => true
  | .data _ writeOk :: rest => writeOk && stopsClean rest

end Tunnelto

/-- C6 (amended): after public EOF the edge sends `End(sid)` on the
owning client's channel exactly once (and at most once on any trace);
but the public→client task never removes the stream id from the
`streams` map on any path — in particular not on the public-EOF path —
and the client→public task removes it exactly when its queue ends
cleanly (queue closed, `TunnelRefused`, or `NoClientTunnel`, with no
failed socket write before that); a failed write also returns without
removing the entry. -/
theorem Tunnelto.stream_lifecycle_spec :
    (∀ (chunks : List (List Nat)),
      (Tunnelto.process_tcp_stream
        ((chunks.map (fun b => Tunnelto.TcpEvent.readData b true)) ++
          [.readEof])).count .sentEnd = 1) ∧
    (∀ evs : List Tunnelto.TcpEvent,
      (Tunnelto.process_tcp_stream evs).count .sentEnd ≤ 1) ∧
    (∀ evs : List Tunnelto.TcpEvent,
      .removedFromStreams ∉ Tunnelto.process_tcp_stream evs) ∧
    (∀ qevs : List Tunnelto.QueueEvent,
      (.removedFromStreams ∈ Tunnelto.tunnel_to_stream qevs ↔
        Tunnelto.stopsClean qevs = true)) := by
  have hloop_end : ∀ evs : List Tunnelto.TcpEvent,
      (Tunnelto.process_tcp_stream_loop evs).count
        Tunnelto.EdgeStreamAction.sentEnd ≤ 1 := by
    intro evs
    induction evs with
    | nil => simp [Tunnelto.process_tcp_stream_loop]
    | cons e rest ih =>
      cases e with
      | clientGone => simp [Tunnelto.process_tcp_stream_loop, List.count_cons]
      | readErr => simp [Tunnelto.process_tcp_stream_loop]
      | readEof => simp [Tunnelto.process_tcp_stream_loop, List.count_cons]
      | readData b ok =>
        cases ok <;>
          simpa [Tunnelto.process_tcp_stream_loop, List.count_cons] using ih
  have hloop_mem : ∀ evs : List Tunnelto.TcpEvent,
      Tunnelto.EdgeStreamAction.removedFromStreams ∉
        Tunnelto.process_tcp_stream_loop evs := by
    intro evs
    induction evs with
    | nil => simp [Tunnelto.process_tcp_stream_loop]
    | cons e rest ih =>
      cases e with
      | clientGone => simp [Tunnelto.process_tcp_stream_loop]
      | readErr => simp [Tunnelto.process_tcp_stream_loop]
      | readEof => simp [Tunnelto.process_tcp_stream_loop]
      | readData b ok =>
        cases ok <;> simp [Tunnelto.process_tcp_stream_loop, ih]
  refine ⟨?_, ?_, ?_, ?_⟩
  · intro chunks
    induction chunks with
    | nil => rfl
    | cons b rest ih =>
      simpa [Tunnelto.process_tcp_stream, Tunnelto.process_tcp_stream_loop,
        List.count_cons] using ih
  · intro evs
    simpa [Tunnelto.process_tcp_stream, List.count_cons] using hloop_end evs
  · intro evs
    simpa [Tunnelto.process_tcp_stream] using hloop_mem evs
  · intro qevs
    induction qevs with
    | nil => simp [Tunnelto.tunnel_to_stream, Tunnelto.stopsClean]
    | cons q rest ih =>
      cases q with
      | tunnelRefused => simp [Tunnelto.tunnel_to_stream, Tunnelto.stopsClean]
      | noClientTunnel => simp [Tunnelto.tunnel_to_stream, Tunnelto.stopsClean]
      | data b ok =>
        cases ok <;>
          simp [Tunnelto.tunnel_to_stream, Tunnelto.stopsClean, ih]

/-- Witness for C6 (amended): a single successful chunk followed by
EOF yields exactly one `End`; the clause characterizing removal
evaluated on the queue trace `[TunnelRefused]`. -/
theorem Tunnelto.stream_lifecycle_spec_witness :
    (Tunnelto.process_tcp_stream
        [.readData [42] true, .readEof]).count .sentEnd = 1 ∧
      (.removedFromStreams ∈ Tunnelto.tunnel_to_stream [.tunnelRefused] ↔
        Tunnelto.stopsClean [.tunnelRefused] = true) :=
  ⟨Tunnelto.stream_lifecycle_spec.1 [[42]],
   Tunnelto.stream_lifecycle_spec.2.2.2 [.tunnelRefused]⟩

/-- C6 counterexample: on the public-EOF termination path the edge
does *not* remove the stream from the `streams` map — the claim's
"the edge removes the entry on both termination paths" fails.  The
public→client task's whole action trace for a read followed by EOF is
`Init`, the `Data` forward and the single `End`; no removal occurs
(and the write-error path of the client→public task also leaves the
entry in place). -/
theorem Tunnelto.stream_lifecycle_counterexample :
    Tunnelto.process_tcp_stream [.readData [42] true, .readEof] =
        [.sentInit, .sentData [42], .sentEnd] ∧
      .removedFromStreams ∉
        Tunnelto.process_tcp_stream [.readData [42] true, .readEof] ∧
      Tunnelto.tunnel_to_stream [.data [7] false] = [.wroteToSocket [7]] := by
  refine ⟨rfl, by decide, rfl⟩
